import Mathlib

/-!
Shallow embedding of `src/SleekGizmoLite.js`, a three.js (r128) translation
gizmo.  Coordinates are exact rationals.  The three.js primitives the code
calls (`Vector3`, `Quaternion`, `Plane`, `Ray`) are embedded by the formulas
of the r128 sources.  `Math.sqrt` is modelled by `ratSqrt`, which agrees with
the real square root on perfect rational squares (the only case the theorems
below evaluate it at).  Externally supplied callbacks are modelled as opaque
identifiers; invoking a callback is recorded in an event log.  The camera is
modelled by its position and the result of `camera.getWorldDirection` (both
library state the gizmo only reads).  Material colors and the `mouse`/NDC
scratch buffers are transient rendering state with no bearing on the claims
and are not carried in the state.
-/

namespace SleekGizmo

/-- three.js `Vector3` restricted to the operations the gizmo uses. -/
structure Vec3 where
  x : ℚ
  y : ℚ
  z : ℚ
deriving DecidableEq

/-- three.js `Quaternion` (x, y, z, w). -/
structure Quat where
  x : ℚ
  y : ℚ
  z : ℚ
  w : ℚ
deriving DecidableEq

instance : Add Vec3 := ⟨fun a b => ⟨a.x + b.x, a.y + b.y, a.z + b.z⟩⟩

instance : Sub Vec3 := ⟨fun a b => ⟨a.x - b.x, a.y - b.y, a.z - b.z⟩⟩

instance : SMul ℚ Vec3 := ⟨fun c v => ⟨c * v.x, c * v.y, c * v.z⟩⟩

/-- `Vector3.dot`. -/
def Vec3.dot (a b : Vec3) : ℚ := a.x * b.x + a.y * b.y + a.z * b.z

/-- `Vector3.lengthSq`. -/
def Vec3.normSq (v : Vec3) : ℚ := v.x * v.x + v.y * v.y + v.z * v.z

/-- Model of `Math.sqrt` over ℚ: exact on perfect rational squares. -/
def ratSqrt (q : ℚ) : ℚ := (Nat.sqrt q.num.toNat : ℚ) / (Nat.sqrt q.den : ℚ)

/-- `Vector3.length` = `sqrt(lengthSq)`. -/
def Vec3.length (v : Vec3) : ℚ := ratSqrt v.normSq

/-- `Vector3.multiplyScalar`. -/
def Vec3.multiplyScalar (v : Vec3) (c : ℚ) : Vec3 := c • v

/-- `Vector3.divideScalar(s)` is `multiplyScalar(1/s)` in three.js. -/
def Vec3.divideScalar (v : Vec3) (c : ℚ) : Vec3 := v.multiplyScalar (1 / c)

/-- `Vector3.normalize`: `divideScalar(length() || 1)` (r128). -/
def Vec3.normalize (v : Vec3) : Vec3 :=
  v.divideScalar (if v.length = 0 then 1 else v.length)

/-- `Vector3.distanceTo` = `sqrt(distanceToSquared)`. -/
def Vec3.distanceTo (a b : Vec3) : ℚ := ratSqrt (a - b).normSq

/-- `Vector3.applyQuaternion`, by the r128 component formulas. -/
def Vec3.applyQuaternion (v : Vec3) (q : Quat) : Vec3 :=
  let ix := q.w * v.x + q.y * v.z - q.z * v.y
  let iy := q.w * v.y + q.z * v.x - q.x * v.z
  let iz := q.w * v.z + q.x * v.y - q.y * v.x
  let iw := -q.x * v.x - q.y * v.y - q.z * v.z
  ⟨ix * q.w + iw * -q.x + iy * -q.z - iz * -q.y,
   iy * q.w + iw * -q.y + iz * -q.x - ix * -q.z,
   iz * q.w + iw * -q.z + ix * -q.y - iy * -q.x⟩

/-- `Quaternion.conjugate`. -/
def Quat.conjugate (q : Quat) : Quat := ⟨-q.x, -q.y, -q.z, q.w⟩

/-- `Quaternion.invert` (r128): the conjugate, unit length assumed. -/
def Quat.invert (q : Quat) : Quat := q.conjugate

/-- `Quaternion.lengthSq`. -/
def Quat.normSq (q : Quat) : ℚ := q.x * q.x + q.y * q.y + q.z * q.z + q.w * q.w

/-- three.js `Plane` (normal and constant). -/
structure Plane where
  normal : Vec3
  constant : ℚ
deriving DecidableEq

/-- `Plane.setFromNormalAndCoplanarPoint`: constant = `-point.dot(normal)`. -/
def Plane.setFromNormalAndCoplanarPoint (n p : Vec3) : Plane := ⟨n, -(p.dot n)⟩

/-- `Plane.distanceToPoint`. -/
def Plane.distanceToPoint (pl : Plane) (p : Vec3) : ℚ := pl.normal.dot p + pl.constant

/-- three.js `Ray`. -/
structure Ray where
  origin : Vec3
  direction : Vec3
deriving DecidableEq

/-- `Ray.at` (named `pointAt` since `at` is reserved in Lean). -/
def Ray.pointAt (r : Ray) (t : ℚ) : Vec3 := r.origin + t • r.direction

/-- `Ray.distanceToPlane` (r128): `none` models the JS `null`. -/
def Ray.distanceToPlane (r : Ray) (pl : Plane) : Option ℚ :=
  let denom := pl.normal.dot r.direction
  if denom = 0 then
    if pl.distanceToPoint r.origin = 0 then some 0 else none
  else
    let t := -(r.origin.dot pl.normal + pl.constant) / denom
    if 0 ≤ t then some t else none

/-- `Ray.intersectPlane`: the point at `distanceToPlane` when it exists. -/
def Ray.intersectPlane (r : Ray) (pl : Plane) : Option Vec3 :=
  (r.distanceToPlane pl).map r.pointAt

/-- The gizmo's axes, the strings `'x'`, `'y'`, `'z'` of the source. -/
inductive Axis where
  | x
  | y
  | z
deriving DecidableEq

/-- The world-frame unit basis vector of an axis. -/
def axisBasis : Axis → Vec3
  | .x => ⟨1, 0, 0⟩
  | .y => ⟨0, 1, 0⟩
  | .z => ⟨0, 0, 1⟩

/-- Coordinate of a vector along an axis. -/
def coordAxis : Axis → Vec3 → ℚ
  | .x, v => v.x
  | .y, v => v.y
  | .z, v => v.z

/-- `_getAxisVector(axis)`: build the basis vector by the three string
comparisons of the source (`axis === 'x' ? 1 : 0`, ...; a `null` axis gives
the zero vector) and rotate it by the attached object's quaternion. -/
def getAxisVector (axis : Option Axis) (q : Quat) : Vec3 :=
  (Vec3.mk (if axis = some Axis.x then 1 else 0)
    (if axis = some Axis.y then 1 else 0)
    (if axis = some Axis.z then 1 else 0)).applyQuaternion q

/-- Externally supplied callback closures, as opaque identifiers. -/
abbrev Callback := ℕ

/-- A raycaster hit as `_handleDown` inspects it: the `userData.axis` tags of
the hit object followed by those of its ancestors, innermost first. -/
abbrev HitChain := List (Option Axis)

/-- The `while (obj && !obj.userData.axis && obj.parent)` ancestor walk of
`_handleDown` followed by the `obj.userData.axis` read: the first axis tag on
the chain, if any. -/
def findAxisTag : HitChain → Option Axis
  | [] => none
  | some a :: _ => some a
  | none :: rest => findAxisTag rest

/-- The camera, by the two library reads the gizmo performs on it. -/
structure Camera where
  position : Vec3
  worldDirection : Vec3
deriving DecidableEq

/-- An attachable `Object3D`, by the fields the gizmo touches. -/
structure Obj where
  position : Vec3
  quaternion : Quat
  scale : Vec3
deriving DecidableEq

/-- The mutable state of a `SleekGizmoLite` instance.  The gizmo group's
handle children are represented by their per-axis `scale.y` (the only handle
transform the class mutates after `_buildGizmo`); `log` records every
callback invocation performed by `_trigger`. -/
structure State where
  camera : Camera
  attachedObject : Option Obj
  gizmoVisible : Bool
  gizmoPosition : Vec3
  gizmoQuaternion : Quat
  gizmoScale : Vec3
  handleScaleY : Axis → ℚ
  isDragging : Bool
  activeAxis : Option Axis
  dragPlane : Plane
  startIntersection : Vec3
  startPosition : Vec3
  cbDragStart : List Callback
  cbDragEnd : List Callback
  cbChange : List Callback
  log : List (String × Callback)

/-- The constructor: fresh `THREE.Group` (visible by default), no attached
object, fresh `Plane`/`Vector3` buffers, empty callback lists. -/
def init (camera : Camera) : State where
  camera := camera
  attachedObject := none
  gizmoVisible := true
  gizmoPosition := ⟨0, 0, 0⟩
  gizmoQuaternion := ⟨0, 0, 0, 1⟩
  gizmoScale := ⟨1, 1, 1⟩
  handleScaleY := fun _ => 1
  isDragging := false
  activeAxis := none
  dragPlane := ⟨⟨1, 0, 0⟩, 0⟩
  startIntersection := ⟨0, 0, 0⟩
  startPosition := ⟨0, 0, 0⟩
  cbDragStart := []
  cbDragEnd := []
  cbChange := []
  log := []

/-- `_trigger(event)`: run every callback registered under `event` once, in
order; modelled by appending the invocations to the log. -/
def trigger (s : State) (name : String) : State :=
  let cbs :=
    if name = "onDragStart" then s.cbDragStart
    else if name = "onDragEnd" then s.cbDragEnd
    else if name = "onChange" then s.cbChange
    else []
  { s with log := s.log ++ cbs.map (fun cb => (name, cb)) }

/-- `event.charAt(0).toUpperCase() + event.slice(1)` (ASCII case mapping). -/
def capFirst (e : String) : String :=
  String.mk ((e.data.take 1).map Char.toUpper ++ e.data.drop 1)

/-- `on(event, callback)` (named `onEvent` since `on` is an infix token in
Lean): form `'on' + capitalized event` and append to the matching callback
list when the key exists, else do nothing. -/
def onEvent (s : State) (event : String) (cb : Callback) : State :=
  let name := "on" ++ capFirst event
  if name = "onDragStart" then { s with cbDragStart := s.cbDragStart ++ [cb] }
  else if name = "onDragEnd" then { s with cbDragEnd := s.cbDragEnd ++ [cb] }
  else if name = "onChange" then { s with cbChange := s.cbChange ++ [cb] }
  else s

/-- `_updateVisuals`: express the camera position in the gizmo's rigid local
frame (un-translate, then rotate by the inverted gizmo quaternion) and set
each handle's `scale.y` to `-1` exactly when that camera coordinate is below
`-0.2`, else `1`. -/
def updateVisuals (s : State) : State :=
  let inv := s.gizmoQuaternion.invert
  let cam := (s.camera.position - s.gizmoPosition).applyQuaternion inv
  { s with handleScaleY := fun a => if coordAxis a cam < -(1 / 5 : ℚ) then -1 else 1 }

/-- `update()`: when an object is attached and the gizmo visible, copy the
object's position and quaternion onto the gizmo group, scale the group
uniformly by `0.09 *` camera distance, and refresh the flip state when not
dragging. -/
def update (s : State) : State :=
  match s.attachedObject with
  | none => s
  | some obj =>
    if s.gizmoVisible = false then s
    else
      let dist := s.camera.position.distanceTo obj.position
      let sc := dist * (9 / 100 : ℚ)
      let s1 := { s with
        gizmoPosition := obj.position
        gizmoQuaternion := obj.quaternion
        gizmoScale := ⟨sc, sc, sc⟩ }
      if s1.isDragging then s1 else updateVisuals s1

/-- `attach(object)`: store the object, set visibility to `!!object`, rebuild
the gizmo meshes (`_buildGizmo` recreates the handles with default transforms,
so every handle `scale.y` is `1` again), then `update()`. -/
def attach (s : State) (o : Option Obj) : State :=
  update { s with
    attachedObject := o
    gizmoVisible := o.isSome
    handleScaleY := fun _ => 1 }

/-- `detach()`. -/
def detach (s : State) : State :=
  { s with attachedObject := none, gizmoVisible := false }

/-- `_startDrag(axis, x, y)` (the `x`, `y` parameters are unused by its body):
set the drag flags, fire `onDragStart`, build the drag plane through the
object's position with the camera's world direction as normal, remember the
start position, and store the ray/plane hit (the fresh zero vector when the
ray misses, since the return value is not checked).  The `attachedObject =
none` branch is unreachable from `_handleDown`; in JS it would throw. -/
def startDrag (s : State) (axis : Axis) (ray : Ray) : State :=
  let s1 := trigger { s with isDragging := true, activeAxis := some axis } "onDragStart"
  match s1.attachedObject with
  | none => s1
  | some obj =>
    let plane := Plane.setFromNormalAndCoplanarPoint s1.camera.worldDirection obj.position
    { s1 with
      dragPlane := plane
      startPosition := obj.position
      startIntersection := (ray.intersectPlane plane).getD ⟨0, 0, 0⟩ }

/-- `_handleDown`: return early when nothing is attached or the gizmo is
hidden; otherwise inspect the first raycaster hit, walk its ancestors for an
axis tag, and start a drag when one is found.  The event's pointer ray (what
`raycaster.setFromCamera` produces) and the hit list (what
`raycaster.intersectObjects` returns) are inputs. -/
def handleDown (s : State) (ray : Ray) (intersects : List HitChain) : State :=
  if s.attachedObject.isNone || !s.gizmoVisible then s
  else
    match intersects with
    | [] => s
    | first :: _ =>
      match findAxisTag first with
      | some a => startDrag s a ray
      | none => s

/-- `_handleMove`: while dragging, intersect the pointer ray with the drag
plane; on a hit, project the offset from the start intersection onto the
normalized active-axis vector and move the object to `startPosition + amount
* axisVec`; in every case fire `onChange`.  The `attachedObject = none`
branch is unreachable in normal use (JS would throw reading
`attachedObject.quaternion`). -/
def handleMove (s : State) (ray : Ray) : State :=
  if s.isDragging = false then s
  else
    let s1 :=
      match ray.intersectPlane s.dragPlane with
      | none => s
      | some current =>
        match s.attachedObject with
        | none => s
        | some obj =>
          let delta := current - s.startIntersection
          let axisVec := (getAxisVector s.activeAxis obj.quaternion).normalize
          let amount := delta.dot axisVec
          let moved : Obj := { obj with position := s.startPosition + amount • axisVec }
          { s with attachedObject := some moved }
    trigger s1 "onChange"

/-- `_handleUp`: when dragging, clear the drag flags, reset the handle colors
(color state not modelled) and fire `onDragEnd`. -/
def handleUp (s : State) : State :=
  if s.isDragging then
    trigger { s with isDragging := false, activeAxis := none } "onDragEnd"
  else s

/-- A pointer event as the three drag handlers consume it. -/
inductive Ev where
  | down (ray : Ray) (intersects : List HitChain)
  | move (ray : Ray)
  | up

/-- Dispatch one pointer event to its handler. -/
def step (s : State) : Ev → State
  | .down ray intersects => handleDown s ray intersects
  | .move ray => handleMove s ray
  | .up => handleUp s

/-- The invariant of claim C9: the gizmo group is visible iff an object is
attached. -/
def gizmoInv (s : State) : Prop := s.gizmoVisible = true ↔ s.attachedObject ≠ none

/-! Concrete inputs used to witness (and refute) the claims. -/

/-- A camera on the positive z axis looking toward the origin. -/
def exCam : Camera := ⟨⟨0, 0, 5⟩, ⟨0, 0, -1⟩⟩

/-- An object at the origin rotated about the z axis by the unit quaternion
`(0, 0, 3/5, 4/5)` (angle `2 * atan(3/4)`). -/
def exObj : Obj := ⟨⟨0, 0, 0⟩, ⟨0, 0, 3/5, 4/5⟩, ⟨1, 1, 1⟩⟩

/-- An unrotated object at the origin. -/
def idObj : Obj := ⟨⟨0, 0, 0⟩, ⟨0, 0, 0, 1⟩, ⟨1, 1, 1⟩⟩

/-- A state in the middle of a drag of the x handle of `exObj`: the drag
plane faces the camera through the origin, the drag started at the origin. -/
def exDragState : State :=
  { init exCam with
    attachedObject := some exObj
    isDragging := true
    activeAxis := some Axis.x
    dragPlane := ⟨⟨0, 0, -1⟩, 0⟩
    startIntersection := ⟨0, 0, 0⟩
    startPosition := ⟨0, 0, 0⟩
    cbChange := [3, 5] }

/-- A pointer ray one world unit to the right of the drag start. -/
def exRay : Ray := ⟨⟨1, 0, 5⟩, ⟨0, 0, -1⟩⟩

/-- A pointer ray parallel to (and off) the drag plane of `exDragState`. -/
def missRay : Ray := ⟨⟨0, 0, 5⟩, ⟨1, 0, 0⟩⟩

/-- An idle state with the unrotated object attached. -/
def idState : State := { init exCam with attachedObject := some idObj }

/-- The pointer ray straight down the camera axis. -/
def ray0 : Ray := ⟨⟨0, 0, 5⟩, ⟨0, 0, -1⟩⟩

/-- The pointer ray two world units to the right of `ray0`. -/
def ray1 : Ray := ⟨⟨2, 0, 5⟩, ⟨0, 0, -1⟩⟩

/-- An idle state whose camera sits on the negative x axis. -/
def negXCamState : State :=
  { init ⟨⟨-3, 0, 0⟩, ⟨1, 0, 0⟩⟩ with attachedObject := some idObj }

/-- An unrotated object one world unit in front of `exCam`. -/
def nearObj : Obj := ⟨⟨0, 0, 4⟩, ⟨0, 0, 0, 1⟩, ⟨1, 1, 1⟩⟩

/-- An idle state with `nearObj` attached. -/
def nearState : State := { init exCam with attachedObject := some nearObj }

/-! Helper lemmas about the embedded three.js vector algebra. -/

@[simp] theorem Vec3.add_def (a b : Vec3) :
    a + b = ⟨a.x + b.x, a.y + b.y, a.z + b.z⟩ := rfl

@[simp] theorem Vec3.sub_def (a b : Vec3) :
    a - b = ⟨a.x - b.x, a.y - b.y, a.z - b.z⟩ := rfl

@[simp] theorem Vec3.smul_def (c : ℚ) (v : Vec3) :
    c • v = ⟨c * v.x, c * v.y, c * v.z⟩ := rfl

/-- On a concrete axis, `_getAxisVector` rotates that axis' basis vector. -/
theorem getAxisVector_some (a : Axis) (q : Quat) :
    getAxisVector (some a) q = (axisBasis a).applyQuaternion q := by
  cases a <;> rfl

/-- `normalize` is always some scalar rescaling of its argument. -/
theorem Vec3.normalize_eq_smul (v : Vec3) :
    ∃ c : ℚ, v.normalize = c • v :=
  ⟨1 / (if v.length = 0 then 1 else v.length), rfl⟩

/-- Rotating by a quaternion scales the squared norm by the quaternion's
squared norm, squared (the r128 formula computes `q v q*` unnormalized). -/
theorem Vec3.normSq_applyQuaternion (v : Vec3) (q : Quat) :
    (v.applyQuaternion q).normSq = q.normSq * q.normSq * v.normSq := by
  cases v
  cases q
  simp only [Vec3.applyQuaternion, Vec3.normSq, Quat.normSq]
  ring

/-- `normalize` fixes vectors of squared norm one. -/
theorem Vec3.normalize_of_normSq_one (v : Vec3) (h : v.normSq = 1) :
    v.normalize = v := by
  have hl : v.length = 1 := by
    rw [Vec3.length, h]
    norm_num [ratSqrt]
  cases v
  simp only [Vec3.normalize, Vec3.divideScalar, Vec3.multiplyScalar, hl]
  norm_num

theorem normSq_axisBasis (a : Axis) : (axisBasis a).normSq = 1 := by
  cases a <;> norm_num [axisBasis, Vec3.normSq]

/-! Projection lemmas: which state fields each operation can touch. -/

@[simp] theorem trigger_attached (s : State) (n : String) :
    (trigger s n).attachedObject = s.attachedObject := rfl

@[simp] theorem trigger_visible (s : State) (n : String) :
    (trigger s n).gizmoVisible = s.gizmoVisible := rfl

theorem startDrag_attached (s : State) (a : Axis) (ray : Ray) :
    (startDrag s a ray).attachedObject = s.attachedObject := by
  cases h : s.attachedObject <;> simp [startDrag, trigger, h]

theorem startDrag_visible (s : State) (a : Axis) (ray : Ray) :
    (startDrag s a ray).gizmoVisible = s.gizmoVisible := by
  cases h : s.attachedObject <;> simp [startDrag, trigger, h]

theorem handleDown_attached (s : State) (ray : Ray) (hits : List HitChain) :
    (handleDown s ray hits).attachedObject = s.attachedObject := by
  unfold handleDown
  split
  · rfl
  · split
    · rfl
    · split
      · rw [startDrag_attached]
      · rfl

theorem handleDown_visible (s : State) (ray : Ray) (hits : List HitChain) :
    (handleDown s ray hits).gizmoVisible = s.gizmoVisible := by
  unfold handleDown
  split
  · rfl
  · split
    · rfl
    · split
      · rw [startDrag_visible]
      · rfl

theorem handleMove_quat_scale (s : State) (ray : Ray) :
    (handleMove s ray).attachedObject.map Obj.quaternion
        = s.attachedObject.map Obj.quaternion ∧
      (handleMove s ray).attachedObject.map Obj.scale
        = s.attachedObject.map Obj.scale ∧
      (handleMove s ray).attachedObject.isSome = s.attachedObject.isSome ∧
      (handleMove s ray).gizmoVisible = s.gizmoVisible := by
  unfold handleMove
  split
  · simp
  · split
    · simp
    · split
      · simp
      · rename_i obj heq
        simp [heq]

theorem handleUp_attached (s : State) :
    (handleUp s).attachedObject = s.attachedObject := by
  unfold handleUp
  split <;> rfl

theorem handleUp_visible (s : State) :
    (handleUp s).gizmoVisible = s.gizmoVisible := by
  unfold handleUp
  split <;> rfl

theorem update_attached (s : State) :
    (update s).attachedObject = s.attachedObject := by
  cases h : s.attachedObject <;> simp only [update, updateVisuals, h]
  split_ifs <;> simp [h]

theorem update_visible (s : State) :
    (update s).gizmoVisible = s.gizmoVisible := by
  cases h : s.attachedObject <;> simp only [update, updateVisuals, h]
  split_ifs <;> rfl

theorem onEvent_attached (s : State) (e : String) (cb : Callback) :
    (onEvent s e cb).attachedObject = s.attachedObject := by
  simp only [onEvent]
  split_ifs <;> rfl

theorem onEvent_visible (s : State) (e : String) (cb : Callback) :
    (onEvent s e cb).gizmoVisible = s.gizmoVisible := by
  simp only [onEvent]
  split_ifs <;> rfl

/-- Left-cancellation for the `'on' + name` prefixing done by `on`. -/
theorem on_append_left_cancel (c d : String) (h : "on" ++ c = "on" ++ d) :
    c = d := by
  cases c with | mk cd =>
  cases d with | mk dd =>
  apply String.ext
  have h2 := congrArg String.data h
  simpa [String.data_append] using h2

/-! The claims. -/

/-- C1 (counterexample): with the attached object rotated by the unit
quaternion `(0, 0, 3/5, 4/5)`, a pointer-move during an active drag of the x
handle moves the object to `(49/625, 168/625, 0)`, which is not the drag
start position plus any scalar multiple of the world x axis. -/
theorem handleMove_not_along_world_axis :
    ¬ ∃ t : ℚ, (handleMove exDragState exRay).attachedObject.map Obj.position =
      some (exDragState.startPosition + t • axisBasis Axis.x) := by
  have hval : (handleMove exDragState exRay).attachedObject.map Obj.position
      = some ⟨49/625, 168/625, 0⟩ := by
    norm_num [handleMove, trigger, Ray.intersectPlane, Ray.distanceToPlane, Ray.pointAt,
      Plane.distanceToPoint, Vec3.dot, Vec3.normSq, ratSqrt, Vec3.length, Vec3.normalize,
      Vec3.divideScalar, Vec3.multiplyScalar, Vec3.applyQuaternion, getAxisVector_some,
      axisBasis, exDragState, exRay, exObj, exCam, init, Rat.num_ofNat, Rat.den_ofNat]
  rintro ⟨t, h⟩
  rw [hval] at h
  simp only [exDragState, init, axisBasis, Vec3.smul_def, Vec3.add_def, Option.some.injEq,
    Vec3.mk.injEq] at h
  obtain ⟨-, h2, -⟩ := h
  norm_num at h2

/-- C1 (amended): for every pointer-move event during an active drag on axis
`a` whose pointer ray hits the drag plane, the attached object's new position
is its position at drag start plus a scalar multiple of the unit vector of
axis `a` rotated by the object's quaternion (the handle's direction in world
space); this is the world axis itself exactly when the object is unrotated. -/
theorem handleMove_along_object_axis (s : State) (ray : Ray) (obj : Obj) (a : Axis) (p : Vec3)
    (hd : s.isDragging = true) (ha : s.attachedObject = some obj)
    (hx : s.activeAxis = some a) (hp : ray.intersectPlane s.dragPlane = some p) :
    ∃ t : ℚ, (handleMove s ray).attachedObject.map Obj.position =
      some (s.startPosition + t • (axisBasis a).applyQuaternion obj.quaternion) := by
  obtain ⟨c, hc⟩ := Vec3.normalize_eq_smul ((axisBasis a).applyQuaternion obj.quaternion)
  simp only [handleMove, hd, hp, ha, hx, getAxisVector_some, hc, trigger_attached]
  refine ⟨(p - s.startIntersection).dot
    (c • (axisBasis a).applyQuaternion obj.quaternion) * c, ?_⟩
  simp only [Bool.true_eq_false, if_false, trigger_attached, Option.map_some',
    Option.some.injEq, Vec3.smul_def, Vec3.add_def, Vec3.mk.injEq]
  refine ⟨by ring, by ring, by ring⟩

/-- C1 (witness): the amended statement applied to the concrete drag of
`exDragState` along `exRay`. -/
theorem handleMove_along_object_axis_witness :
    exDragState.isDragging = true ∧
      exDragState.attachedObject = some exObj ∧
      exDragState.activeAxis = some Axis.x ∧
      exRay.intersectPlane exDragState.dragPlane = some ⟨1, 0, 0⟩ ∧
      ∃ t : ℚ, (handleMove exDragState exRay).attachedObject.map Obj.position =
        some (exDragState.startPosition +
          t • (axisBasis Axis.x).applyQuaternion exObj.quaternion) := by
  have hp : exRay.intersectPlane exDragState.dragPlane = some ⟨1, 0, 0⟩ := by
    norm_num [Ray.intersectPlane, Ray.distanceToPlane, Ray.pointAt, Plane.distanceToPoint,
      Vec3.dot, exDragState, exRay, init]
  exact ⟨rfl, rfl, rfl, hp,
    handleMove_along_object_axis exDragState exRay exObj Axis.x ⟨1, 0, 0⟩ rfl rfl rfl hp⟩

/-- C2: when the pointer ray does not hit the drag plane during an active
drag, the pointer-move handler changes nothing except firing the `onChange`
callbacks: in particular the attached object (and its position) is left
exactly as it was, with no other recovery. -/
theorem handleMove_miss_is_ignored (s : State) (ray : Ray)
    (hd : s.isDragging = true) (hm : ray.intersectPlane s.dragPlane = none) :
    handleMove s ray = { s with log := s.log ++ s.cbChange.map (fun cb => ("onChange", cb)) } := by
  have h1 : ("onChange" : String) ≠ "onDragStart" := by decide
  have h2 : ("onChange" : String) ≠ "onDragEnd" := by decide
  simp [handleMove, hd, hm, trigger, h1, h2]

/-- C2 (witness): a drag state with a pointer ray parallel to the drag plane
leaves everything but the log unchanged. -/
theorem handleMove_miss_is_ignored_witness :
    exDragState.isDragging = true ∧
      missRay.intersectPlane exDragState.dragPlane = none ∧
      handleMove exDragState missRay =
        { exDragState with
          log := exDragState.log ++ exDragState.cbChange.map (fun cb => ("onChange", cb)) } := by
  have hm : missRay.intersectPlane exDragState.dragPlane = none := by
    norm_num [Ray.intersectPlane, Ray.distanceToPlane, Plane.distanceToPoint, Vec3.dot,
      missRay, exDragState, init]
  exact ⟨rfl, hm, handleMove_miss_is_ignored exDragState missRay rfl hm⟩

/-- C3: a drag started on axis `a` (building the plane through the object's
start position with the camera's world direction as normal) followed by a
pointer-move whose ray hits that plane at `p1` puts the object exactly at
`startPosition + ((p1 - p0) . axisUnit) * axisUnit`, where `p0` is the
ray/plane hit at drag start and `axisUnit` the normalized rotated axis (for a
unit object quaternion). -/
theorem startDrag_handleMove_math (s : State) (a : Axis) (r0 r1 : Ray) (obj : Obj) (p0 p1 : Vec3)
    (ha : s.attachedObject = some obj)
    (hq : obj.quaternion.normSq = 1)
    (h0 : r0.intersectPlane
      (Plane.setFromNormalAndCoplanarPoint s.camera.worldDirection obj.position) = some p0)
    (h1 : r1.intersectPlane
      (Plane.setFromNormalAndCoplanarPoint s.camera.worldDirection obj.position) = some p1) :
    (handleMove (startDrag s a r0) r1).attachedObject.map Obj.position =
      some (obj.position +
        ((p1 - p0).dot ((axisBasis a).applyQuaternion obj.quaternion)) •
          (axisBasis a).applyQuaternion obj.quaternion) := by
  have hu : ((axisBasis a).applyQuaternion obj.quaternion).normSq = 1 := by
    rw [Vec3.normSq_applyQuaternion, hq, normSq_axisBasis]
    ring
  have hnorm := Vec3.normalize_of_normSq_one _ hu
  simp only [startDrag, trigger, ha, h0, Option.getD_some]
  simp only [handleMove, h1, Bool.true_eq_false, if_false, getAxisVector_some, hnorm,
    trigger_attached, Option.map_some']

/-- C3 (witness): the exact drag math evaluated on an unrotated object with
the camera on the z axis: a start hit at the origin and a move hit at
`(2, 0, 0)` put the object at `(2, 0, 0)`. -/
theorem startDrag_handleMove_math_witness :
    idState.attachedObject = some idObj ∧
      idObj.quaternion.normSq = 1 ∧
      ray0.intersectPlane
        (Plane.setFromNormalAndCoplanarPoint idState.camera.worldDirection idObj.position)
        = some ⟨0, 0, 0⟩ ∧
      ray1.intersectPlane
        (Plane.setFromNormalAndCoplanarPoint idState.camera.worldDirection idObj.position)
        = some ⟨2, 0, 0⟩ ∧
      (handleMove (startDrag idState Axis.x ray0) ray1).attachedObject.map Obj.position =
        some (idObj.position +
          (((⟨2, 0, 0⟩ : Vec3) - ⟨0, 0, 0⟩).dot ((axisBasis Axis.x).applyQuaternion idObj.quaternion)) •
            (axisBasis Axis.x).applyQuaternion idObj.quaternion) := by
  have hq : idObj.quaternion.normSq = 1 := by norm_num [idObj, Quat.normSq]
  have h0 : ray0.intersectPlane
      (Plane.setFromNormalAndCoplanarPoint idState.camera.worldDirection idObj.position)
      = some ⟨0, 0, 0⟩ := by
    norm_num [Ray.intersectPlane, Ray.distanceToPlane, Ray.pointAt, Plane.distanceToPoint,
      Plane.setFromNormalAndCoplanarPoint, Vec3.dot, ray0, idState, idObj, init, exCam]
  have h1 : ray1.intersectPlane
      (Plane.setFromNormalAndCoplanarPoint idState.camera.worldDirection idObj.position)
      = some ⟨2, 0, 0⟩ := by
    norm_num [Ray.intersectPlane, Ray.distanceToPlane, Ray.pointAt, Plane.distanceToPoint,
      Plane.setFromNormalAndCoplanarPoint, Vec3.dot, ray1, idState, idObj, init, exCam]
  exact ⟨rfl, hq, h0, h1,
    startDrag_handleMove_math idState Axis.x ray0 ray1 idObj ⟨0, 0, 0⟩ ⟨2, 0, 0⟩ rfl hq h0 h1⟩

/-- C4: a mousedown/touchstart with no attached object, or whose hit list
contains no object carrying an axis tag on itself or an ancestor, is a
silent no-op: the whole state (drag flags, attached object, callback log) is
returned unchanged. -/
theorem handleDown_silent_noop (s : State) (ray : Ray) (hits : List HitChain)
    (h : s.attachedObject = none ∨ ∀ c ∈ hits, findAxisTag c = none) :
    handleDown s ray hits = s := by
  unfold handleDown
  rcases h with h | h
  · simp [h]
  · cases hits with
    | nil => simp
    | cons first rest =>
      have hf : findAxisTag first = none := h first (by simp)
      split
      · rfl
      · simp [hf]

/-- C4 (witness): a mousedown whose only hit chain carries no axis tag
anywhere leaves the (object-attached) state untouched. -/
theorem handleDown_silent_noop_witness :
    (idState.attachedObject = none ∨
        ∀ c ∈ ([[none, none]] : List HitChain), findAxisTag c = none) ∧
      handleDown idState ray0 [[none, none]] = idState := by
  have h : idState.attachedObject = none ∨
      ∀ c ∈ ([[none, none]] : List HitChain), findAxisTag c = none := by
    right
    decide
  exact ⟨h, handleDown_silent_noop idState ray0 [[none, none]] h⟩

/-- C5: across any sequence of pointer events (drag start, every
pointer-move, drag end), the gizmo only ever modifies the attached object's
position: its quaternion and scale are never changed. -/
theorem drag_touches_only_position (s : State) (evs : List Ev) :
    ((evs.foldl step s).attachedObject.map Obj.quaternion
        = s.attachedObject.map Obj.quaternion) ∧
      ((evs.foldl step s).attachedObject.map Obj.scale
        = s.attachedObject.map Obj.scale) := by
  induction evs generalizing s with
  | nil => exact ⟨rfl, rfl⟩
  | cons ev rest ih =>
    have hstep : (step s ev).attachedObject.map Obj.quaternion
          = s.attachedObject.map Obj.quaternion ∧
        (step s ev).attachedObject.map Obj.scale = s.attachedObject.map Obj.scale := by
      cases ev with
      | down ray hits => simp [step, handleDown_attached]
      | move ray => exact ⟨(handleMove_quat_scale s ray).1, (handleMove_quat_scale s ray).2.1⟩
      | up => simp [step, handleUp_attached]
    rw [List.foldl_cons]
    obtain ⟨ih1, ih2⟩ := ih (step s ev)
    exact ⟨ih1.trans hstep.1, ih2.trans hstep.2⟩

/-- C6: with an object attached and the gizmo visible, `update()` copies the
object's position and quaternion onto the gizmo group and scales the group
uniformly by `0.09` times the camera-to-object distance. -/
theorem update_scales_uniformly (s : State) (obj : Obj)
    (ha : s.attachedObject = some obj) (hv : s.gizmoVisible = true) :
    (update s).gizmoScale =
        ⟨s.camera.position.distanceTo obj.position * (9 / 100),
          s.camera.position.distanceTo obj.position * (9 / 100),
          s.camera.position.distanceTo obj.position * (9 / 100)⟩ ∧
      (update s).gizmoPosition = obj.position ∧
      (update s).gizmoQuaternion = obj.quaternion := by
  simp only [update, ha, hv, Bool.true_eq_false, if_false]
  split_ifs <;> simp [updateVisuals]

/-- C6 (witness): on `nearState` (camera distance 1) the gizmo group is
scaled to `(9/100, 9/100, 9/100)` and takes the object's transform. -/
theorem update_scales_uniformly_witness :
    nearState.attachedObject = some nearObj ∧
      nearState.gizmoVisible = true ∧
      ((update nearState).gizmoScale =
          ⟨nearState.camera.position.distanceTo nearObj.position * (9 / 100),
            nearState.camera.position.distanceTo nearObj.position * (9 / 100),
            nearState.camera.position.distanceTo nearObj.position * (9 / 100)⟩ ∧
        (update nearState).gizmoPosition = nearObj.position ∧
        (update nearState).gizmoQuaternion = nearObj.quaternion) ∧
      (update nearState).gizmoScale = ⟨9 / 100, 9 / 100, 9 / 100⟩ := by
  have h := update_scales_uniformly nearState nearObj rfl rfl
  refine ⟨rfl, rfl, h, ?_⟩
  rw [h.1]
  norm_num [Vec3.distanceTo, Vec3.normSq, ratSqrt, nearState, nearObj, init, exCam,
    Rat.num_ofNat, Rat.den_ofNat]

/-- C7: on every `update()` while not dragging, a handle is mirrored
(`scale.y = -1`) exactly when the camera position, expressed in the gizmo's
rigid local frame (un-translated by the gizmo position and un-rotated by the
inverted gizmo quaternion, both just copied from the object), has coordinate
along that handle's axis strictly below `-0.2`; otherwise `scale.y = 1`. -/
theorem update_flips_handles (s : State) (obj : Obj) (a : Axis)
    (ha : s.attachedObject = some obj) (hv : s.gizmoVisible = true)
    (hd : s.isDragging = false) :
    ((update s).handleScaleY a = -1 ∨ (update s).handleScaleY a = 1) ∧
      ((update s).handleScaleY a = -1 ↔
        coordAxis a ((s.camera.position - obj.position).applyQuaternion
          obj.quaternion.invert) < -(1 / 5 : ℚ)) := by
  simp only [update, ha, hv, hd, Bool.true_eq_false, Bool.false_eq_true, if_false,
    updateVisuals]
  split_ifs with hc
  · exact ⟨Or.inl rfl, iff_of_true rfl hc⟩
  · exact ⟨Or.inr rfl, iff_of_false (by norm_num) hc⟩

/-- C7 (witness): with the camera on the negative x axis, the x handle of an
unrotated object at the origin is mirrored. -/
theorem update_flips_handles_witness :
    negXCamState.attachedObject = some idObj ∧
      negXCamState.gizmoVisible = true ∧
      negXCamState.isDragging = false ∧
      (((update negXCamState).handleScaleY Axis.x = -1 ∨
          (update negXCamState).handleScaleY Axis.x = 1) ∧
        ((update negXCamState).handleScaleY Axis.x = -1 ↔
          coordAxis Axis.x ((negXCamState.camera.position - idObj.position).applyQuaternion
            idObj.quaternion.invert) < -(1 / 5 : ℚ))) :=
  ⟨rfl, rfl, rfl, update_flips_handles negXCamState idObj Axis.x rfl rfl rfl⟩

/-- C8: every pointer-move during a drag fires the registered `onChange`
callbacks exactly once each, in registration order, whether or not the
pointer ray hits the drag plane. -/
theorem handleMove_always_fires_change (s : State) (ray : Ray) (hd : s.isDragging = true) :
    (handleMove s ray).log = s.log ++ s.cbChange.map (fun cb => ("onChange", cb)) := by
  have h1 : ("onChange" : String) ≠ "onDragStart" := by decide
  have h2 : ("onChange" : String) ≠ "onDragEnd" := by decide
  simp only [handleMove, hd, Bool.true_eq_false, if_false]
  cases hp : ray.intersectPlane s.dragPlane with
  | none => simp [hp, trigger, h1, h2]
  | some p =>
    cases hb : s.attachedObject with
    | none => simp [hp, hb, trigger, h1, h2]
    | some obj => simp [hp, hb, trigger, h1, h2]

/-- C8 (witness): the onChange callbacks `3` and `5` of `exDragState` are
each logged exactly once by a pointer-move. -/
theorem handleMove_always_fires_change_witness :
    exDragState.isDragging = true ∧
      (handleMove exDragState exRay).log =
        exDragState.log ++ exDragState.cbChange.map (fun cb => ("onChange", cb)) :=
  ⟨rfl, handleMove_always_fires_change exDragState exRay rfl⟩

/-- C9 (counterexample): straight after construction the invariant fails:
the fresh gizmo group is visible (the library default) while no object is
attached. -/
theorem init_violates_visibility_invariant : ¬ gizmoInv (init exCam) := by
  simp [gizmoInv, init]

/-- C9 (amended): the visible-iff-attached invariant holds after every
`attach` or `detach`, and every operation preserves it; it does not hold
after bare construction (see the counterexample), where the group is visible
by default while nothing is attached. -/
theorem visibility_invariant_established_and_preserved :
    (∀ s o, gizmoInv (attach s o)) ∧
      (∀ s, gizmoInv (detach s)) ∧
      (∀ s, gizmoInv s → gizmoInv (update s)) ∧
      (∀ s e cb, gizmoInv s → gizmoInv (onEvent s e cb)) ∧
      (∀ s ray hits, gizmoInv s → gizmoInv (handleDown s ray hits)) ∧
      (∀ s ray, gizmoInv s → gizmoInv (handleMove s ray)) ∧
      (∀ s, gizmoInv s → gizmoInv (handleUp s)) := by
  refine ⟨?_, ?_, ?_, ?_, ?_, ?_, ?_⟩
  · intro s o
    unfold gizmoInv attach
    rw [update_visible, update_attached]
    cases o <;> simp
  · intro s
    simp [gizmoInv, detach]
  · intro s h
    unfold gizmoInv at h ⊢
    rwa [update_visible, update_attached]
  · intro s e cb h
    unfold gizmoInv at h ⊢
    rwa [onEvent_visible, onEvent_attached]
  · intro s ray hits h
    unfold gizmoInv at h ⊢
    rwa [handleDown_visible, handleDown_attached]
  · intro s ray h
    unfold gizmoInv at h ⊢
    obtain ⟨-, -, hsome, hvis⟩ := handleMove_quat_scale s ray
    rw [hvis, Option.ne_none_iff_isSome, hsome, ← Option.ne_none_iff_isSome]
    exact h
  · intro s h
    unfold gizmoInv at h ⊢
    rwa [handleUp_visible, handleUp_attached]

/-- C9 (witness): the invariant holds for an `update` following a `detach`
of a freshly constructed gizmo. -/
theorem visibility_invariant_witness : gizmoInv (update (detach (init exCam))) :=
  visibility_invariant_established_and_preserved.2.2.1 (detach (init exCam))
    (visibility_invariant_established_and_preserved.2.1 (init exCam))

/-- C10: `on(event, cb)` appends `cb` to the matching callback list exactly
when the event name, after the internal first-letter capitalization, is one
of `DragStart`, `DragEnd`, `Change`; any other event name leaves the state
(in particular all three callback lists) unchanged. -/
theorem onEvent_dispatch (s : State) (event : String) (cb : Callback) :
    (capFirst event ∉ (["DragStart", "DragEnd", "Change"] : List String) →
        onEvent s event cb = s) ∧
      (capFirst event = "DragStart" →
        onEvent s event cb = { s with cbDragStart := s.cbDragStart ++ [cb] }) ∧
      (capFirst event = "DragEnd" →
        onEvent s event cb = { s with cbDragEnd := s.cbDragEnd ++ [cb] }) ∧
      (capFirst event = "Change" →
        onEvent s event cb = { s with cbChange := s.cbChange ++ [cb] }) := by
  have e1 : ("onDragStart" : String) = "on" ++ "DragStart" := by decide
  have e2 : ("onDragEnd" : String) = "on" ++ "DragEnd" := by decide
  have e3 : ("onChange" : String) = "on" ++ "Change" := by decide
  refine ⟨?_, ?_, ?_, ?_⟩
  · intro h
    simp only [List.mem_cons, List.not_mem_nil, or_false, not_or] at h
    obtain ⟨n1, n2, n3⟩ := h
    have m1 : "on" ++ capFirst event ≠ "onDragStart" := fun hh =>
      n1 (on_append_left_cancel _ _ (hh.trans e1))
    have m2 : "on" ++ capFirst event ≠ "onDragEnd" := fun hh =>
      n2 (on_append_left_cancel _ _ (hh.trans e2))
    have m3 : "on" ++ capFirst event ≠ "onChange" := fun hh =>
      n3 (on_append_left_cancel _ _ (hh.trans e3))
    simp [onEvent, m1, m2, m3]
  · intro h
    simp [onEvent, h]
  · intro h
    have n1 : ("on" : String) ++ "DragEnd" ≠ "onDragStart" := by decide
    simp [onEvent, h, n1]
  · intro h
    have n1 : ("on" : String) ++ "Change" ≠ "onDragStart" := by decide
    have n2 : ("on" : String) ++ "Change" ≠ "onDragEnd" := by decide
    simp [onEvent, h, n1, n2]

/-- C10 (witness): registering under `resize` is a no-op while registering
under `change` appends to the onChange list. -/
theorem onEvent_dispatch_witness :
    (capFirst "resize" ∉ (["DragStart", "DragEnd", "Change"] : List String)) ∧
      onEvent (init exCam) "resize" 7 = init exCam ∧
      capFirst "change" = "Change" ∧
      onEvent (init exCam) "change" 7 =
        { init exCam with cbChange := (init exCam).cbChange ++ [7] } := by
  have hn : capFirst "resize" ∉ (["DragStart", "DragEnd", "Change"] : List String) := by
    decide
  have hc : capFirst "change" = "Change" := by decide
  exact ⟨hn, (onEvent_dispatch (init exCam) "resize" 7).1 hn, hc,
    (onEvent_dispatch (init exCam) "change" 7).2.2.2 hc⟩

end SleekGizmo
